import Mathlib

/-!
Verification of the polars_iptools IP-enrichment and CIDR-matching core.

The Rust sources are shallowly embedded: each per-row Polars expression
becomes a pure Lean function over one row (`Option String` in, typed cells
out), the memory-mapped MaxMind/Spur readers become functions from an
address to an optional raw record, and the iptrie prefix tries become lists
of inserted prefixes with a longest-prefix lookup.  Machine integers are
`Nat` with explicit bounds; f32/f64 fields are carried as `Float` but never
computed with.  Textual address parsing is delegated by the source to the
external standard library (`IpAddr::from_str`, `IpNet::from_str`), so the
row drivers are parameterised by the parse functions; no theorem below
depends on the parser internals, only on whether a given row parses.
-/

namespace PolarsIptools

/-! ## Addresses (src/iptools.rs, std::net)

An IPv4 address is four octets; `u32FromIpv4` models `u32::from(Ipv4Addr)`
(big-endian packing) as used by `pl_ipv4_to_numeric`, and `ipv4FromU32`
models `Ipv4Addr::from(u32)` as used by `pl_numeric_to_ipv4`.  IPv6
addresses are modelled as their 128-bit numeric value. -/

structure Ipv4Addr where
  o1 : Nat
  o2 : Nat
  o3 : Nat
  o4 : Nat
deriving DecidableEq

/-- A valid IPv4 address has each octet below 256. -/
def Ipv4Addr.valid (v : Ipv4Addr) : Bool :=
  v.o1 < 256 && v.o2 < 256 && v.o3 < 256 && v.o4 < 256

/-- `u32::from(ipv4)`: big-endian packing of the four octets into a 32-bit
integer, as used in `pl_ipv4_to_numeric` (src/iptools.rs line 45). -/
def u32FromIpv4 (v : Ipv4Addr) : Nat :=
  ((v.o1 * 256 + v.o2) * 256 + v.o3) * 256 + v.o4

/-- `Ipv4Addr::from(u32)`: unpacking a 32-bit integer into four octets, as
used in `pl_numeric_to_ipv4` (src/iptools.rs line 66). -/
def ipv4FromU32 (n : Nat) : Ipv4Addr :=
  ⟨n / 2 ^ 24 % 256, n / 2 ^ 16 % 256, n / 2 ^ 8 % 256, n % 256⟩

/-- Tagged union of parsed addresses (`std::net::IpAddr`). -/
inductive IpAddr where
  | v4 (a : Ipv4Addr)
  | v6 (a : Nat)
deriving DecidableEq

/-! ## CIDR ranges and the prefix tries (src/iptools.rs `pl_is_in`)

`ipnet::Ipv4Net` / `Ipv6Net` keep an address together with a prefix length.
The `iptrie` sets are modelled as the list of inserted prefixes: `compress`
is lookup-preserving, and `RTrieSet`/`LCTrieSet` lookup is a total
longest-prefix match that always has the root prefix (length 0) to fall
back on — which is why the source can call `.len()` directly on the lookup
result (src/iptools.rs lines 116-117) instead of unwrapping an `Option`. -/

structure Ipv4Net where
  addr : Nat
  len : Nat
deriving DecidableEq

structure Ipv6Net where
  addr : Nat
  len : Nat
deriving DecidableEq

/-- `ipnet::IpNet`, as produced by `IpNet::from_str`. -/
inductive IpNet where
  | v4 (n : Ipv4Net)
  | v6 (n : Ipv6Net)
deriving DecidableEq

/-- A v4 prefix contains an address when they agree on the first `len`
bits, i.e. when the addresses coincide after dropping the `32 - len` host
bits. -/
def Ipv4Net.containsIp (net : Ipv4Net) (ip : Nat) : Bool :=
  ip / 2 ^ (32 - net.len) == net.addr / 2 ^ (32 - net.len)

/-- A v6 prefix contains an address when they agree on the first `len`
bits of the 128-bit value. -/
def Ipv6Net.containsIp (net : Ipv6Net) (ip : Nat) : Bool :=
  ip / 2 ^ (128 - net.len) == net.addr / 2 ^ (128 - net.len)

/-- Longest-prefix lookup of the iptrie sets, generic in the prefix type:
walk the inserted prefixes keeping the longest one containing `ip`,
starting from a fallback (the always-present root prefix). -/
def lctrieLookup {α : Type} (contains : α → Nat → Bool) (lenOf : α → Nat)
    (ip : Nat) : List α → α → α
  | [], best => best
  | net :: rest, best =>
    lctrieLookup contains lenOf ip rest
      (if contains net ip = true ∧ lenOf best < lenOf net then net else best)

/-- `ipv4_lctrie.lookup(&ipv4).len() > 0` (src/iptools.rs line 116): the
longest v4 prefix containing the address, starting from the root prefix
`0.0.0.0/0`, has nonzero length. -/
def ipv4TrieMatch (nets : List Ipv4Net) (ip : Nat) : Bool :=
  decide (0 < (lctrieLookup Ipv4Net.containsIp Ipv4Net.len ip nets ⟨0, 0⟩).len)

/-- `ipv6_lctrie.lookup(&ipv6).len() > 0` (src/iptools.rs line 117). -/
def ipv6TrieMatch (nets : List Ipv6Net) (ip : Nat) : Bool :=
  decide (0 < (lctrieLookup Ipv6Net.containsIp Ipv6Net.len ip nets ⟨0, 0⟩).len)

/-- The trie-construction loop of `pl_is_in` (src/iptools.rs lines 86-100):
null range entries are skipped (`.flatten()`), each parsed range is
inserted into the trie of its family, and the first non-null entry that
fails `IpNet::from_str` aborts the whole call with an error naming it. -/
def buildTries (parseNet : String → Option IpNet) :
    List (Option String) → Except String (List Ipv4Net × List Ipv6Net)
  | [] => .ok ([], [])
  | none :: rest => buildTries parseNet rest
  | some cidr :: rest =>
    match parseNet cidr with
    | some (.v4 n) =>
      match buildTries parseNet rest with
      | .ok (v4s, v6s) => .ok (n :: v4s, v6s)
      | .error e => .error e
    | some (.v6 n) =>
      match buildTries parseNet rest with
      | .ok (v4s, v6s) => .ok (v4s, n :: v6s)
      | .error e => .error e
    | none => .error ("Invalid CIDR range: " ++ cidr)

/-- One row of the `pl_is_in` query loop (src/iptools.rs lines 109-126):
null row or unparseable address yields a null cell; a parsed address is
looked up in the trie of its own family only. -/
def pl_is_in_row (parse : String → Option IpAddr)
    (v4s : List Ipv4Net) (v6s : List Ipv6Net) (row : Option String) :
    Option Bool :=
  match row with
  | none => none
  | some value =>
    match parse value with
    | none => none
    | some (.v4 ipv4) => some (ipv4TrieMatch v4s (u32FromIpv4 ipv4))
    | some (.v6 ipv6) => some (ipv6TrieMatch v6s ipv6)

/-- `pl_is_in` (src/iptools.rs lines 78-129): build both tries from the
ranges column, then map the query loop over the address column; a
construction error aborts the call with no rows. -/
def pl_is_in (parse : String → Option IpAddr) (parseNet : String → Option IpNet)
    (ips ranges : List (Option String)) : Except String (List (Option Bool)) :=
  match buildTries parseNet ranges with
  | .error e => .error e
  | .ok (v4s, v6s) => .ok (ips.map (pl_is_in_row parse v4s v6s))

/-- "there is an inserted covering range of the address's own family with
nonzero prefix length" — the condition `pl_is_in` actually decides per
parsed address. -/
def familyCovered (v4s : List Ipv4Net) (v6s : List Ipv6Net) : IpAddr → Prop
  | .v4 a => ∃ n ∈ v4s, n.containsIp (u32FromIpv4 a) = true ∧ 0 < n.len
  | .v6 a => ∃ n ∈ v6s, n.containsIp a = true ∧ 0 < n.len

/-! ## Spur context/reputation dataset (src/spurdb.rs, src/spur.rs) -/

/-- Raw record deserialized from the Spur MMDB
(`SpurLookupResult`, src/spurdb.rs lines 59-67). -/
structure SpurLookupResult where
  clientCount : Option Float
  infrastructure : Option String
  locationCity : Option String
  locationCountry : Option String
  locationState : Option String
  services : Option (List String)
  tag : Option String

/-- Projected Spur record (`SpurResult`, src/spurdb.rs lines 29-38). -/
structure SpurResult where
  client_count : Float
  infrastructure : String
  location_city : String
  location_country : String
  location_state : String
  services : Option (List String)
  tag : String

/-- `SpurResult::default` (src/spurdb.rs lines 40-52): zeros, empty
strings, and an absent (`None`) services list. -/
def SpurResult.default : SpurResult :=
  { client_count := 0.0
    infrastructure := ""
    location_city := ""
    location_country := ""
    location_state := ""
    services := none
    tag := "" }

/-- `SpurDB::iplookup` (src/spurdb.rs lines 168-183).  The mmdb reader is
modelled as a function from address to optional raw record.  On a miss the
all-defaults record is returned; on a hit every field is filled with
`unwrap_or_default`, and in particular `services` becomes
`Some(record.services.unwrap_or_default())` — an explicit list (possibly
empty), never `None`. -/
def SpurDB.iplookup (db : IpAddr → Option SpurLookupResult) (ip : IpAddr) :
    SpurResult :=
  match db ip with
  | none => SpurResult.default
  | some record =>
    { client_count := record.clientCount.getD 0.0
      infrastructure := record.infrastructure.getD ""
      location_city := record.locationCity.getD ""
      location_country := record.locationCountry.getD ""
      location_state := record.locationState.getD ""
      services := some (record.services.getD [])
      tag := record.tag.getD "" }

/-- One output row of `pl_full_spur`: the six scalar builder cells (in
`SPUR_FIELDS` order, src/spurdb.rs lines 17-25) plus the standalone
services list cell. -/
structure SpurRow where
  client_count : Option Float
  infrastructure : Option String
  location_city : Option String
  location_country : Option String
  location_state : Option String
  tag : Option String
  services : Option (List String)
deriving Repr

/-- The all-null Spur row appended for null or unparseable inputs
(src/spur.rs lines 68-81). -/
def SpurRow.allNull : SpurRow :=
  ⟨none, none, none, none, none, none, none⟩

/-- One row of the `pl_full_spur` loop (src/spur.rs lines 46-82): null or
unparseable input appends null to every builder; otherwise the projected
`SpurDB::iplookup` record is appended field by field, with the services
cell null exactly when the projected `services` is `None`. -/
def pl_full_spur_row (db : IpAddr → Option SpurLookupResult)
    (parse : String → Option IpAddr) (row : Option String) : SpurRow :=
  match row with
  | none => SpurRow.allNull
  | some ip_s =>
    match parse ip_s with
    | none => SpurRow.allNull
    | some ip =>
      let r := SpurDB.iplookup db ip
      { client_count := some r.client_count
        infrastructure := some r.infrastructure
        location_city := some r.location_city
        location_country := some r.location_country
        location_state := some r.location_state
        tag := some r.tag
        services := r.services }

/-! ## MaxMind GeoIP dataset (src/geoip.rs)

The `maxminddb::geoip2` record shapes, with localized name maps modelled
as association lists keyed by locale. -/

/-- `geoip2::Asn`. -/
structure Asn where
  autonomous_system_number : Option Nat
  autonomous_system_organization : Option String

/-- Localized-name map access `names.get("en")`. -/
def namesGet (names : List (String × String)) (key : String) : Option String :=
  (names.find? (fun p => p.1 == key)).map (fun p => p.2)

/-- `geoip2::city::Continent` (only the `code` field is read). -/
structure Continent where
  code : Option String

/-- `geoip2::city::Country`. -/
structure Country where
  iso_code : Option String
  names : Option (List (String × String))

/-- `geoip2::city::Subdivision`. -/
structure Subdivision where
  iso_code : Option String
  names : Option (List (String × String))

/-- The inner `city` sub-record (only its `names` map is read). -/
structure CityName where
  names : Option (List (String × String))

/-- `geoip2::city::Location`. -/
structure Location where
  latitude : Option Float
  longitude : Option Float
  time_zone : Option String

/-- `geoip2::City`. -/
structure City where
  city : Option CityName
  continent : Option Continent
  country : Option Country
  subdivisions : Option (List Subdivision)
  location : Option Location

/-- The eleven projected geoip fields, in the order of
`geoip_full_output` (src/geoip.rs lines 125-152). -/
structure GeoRecord where
  asnnum : Nat
  asnorg : String
  city : String
  continent : String
  subdivision_iso : String
  subdivision : String
  country_iso : String
  country : String
  latitude : Float
  longitude : Float
  timezone : String

/-- The all-defaults geoip record: the initial values of the per-row local
variables in `pl_full_geoip` (src/geoip.rs lines 193-203), kept whenever a
lookup misses or a sub-record is absent. -/
def GeoRecord.defaults : GeoRecord :=
  { asnnum := 0
    asnorg := ""
    city := ""
    continent := ""
    subdivision_iso := ""
    subdivision := ""
    country_iso := ""
    country := ""
    latitude := 0.0
    longitude := 0.0
    timezone := "" }

/-- One row of the `pl_full_geoip` loop (src/geoip.rs lines 190-286): null
or unparseable input appends null to all eleven builders (modelled as
`none`); otherwise the locals start at their defaults, the ASN lookup
fills the ASN fields, and the City lookup fills the remaining fields with
`""`/`0.0` defaults along every absent sub-record, preferring the fixed
`"en"` locale in name maps. -/
def pl_full_geoip_row (asnDb : IpAddr → Option Asn) (cityDb : IpAddr → Option City)
    (parse : String → Option IpAddr) (row : Option String) : Option GeoRecord :=
  match row with
  | none => none
  | some ip_s =>
    match parse ip_s with
    | none => none
    | some ip =>
      let r0 := GeoRecord.defaults
      let r1 :=
        match asnDb ip with
        | none => r0
        | some asnrecord =>
          { r0 with
              asnnum := asnrecord.autonomous_system_number.getD 0
              asnorg := asnrecord.autonomous_system_organization.getD "" }
      let r2 :=
        match cityDb ip with
        | none => r1
        | some cityrecord =>
          { r1 with
              continent := (cityrecord.continent.bind (fun c => c.code)).getD ""
              country_iso := (cityrecord.country.bind (fun c => c.iso_code)).getD ""
              country :=
                (cityrecord.country.bind
                  (fun c => c.names.bind (fun n => namesGet n "en"))).getD ""
              subdivision_iso :=
                (cityrecord.subdivisions.bind
                  (fun subs => subs.head?.bind (fun sd => sd.iso_code))).getD ""
              subdivision :=
                (cityrecord.subdivisions.bind
                  (fun subs => subs.head?.bind
                    (fun sd => sd.names.bind (fun n => namesGet n "en")))).getD ""
              city :=
                ((cityrecord.city.bind (fun c => c.names)).bind
                  (fun n => namesGet n "en")).getD ""
              timezone := (cityrecord.location.bind (fun l => l.time_zone)).getD ""
              latitude := (cityrecord.location.bind (fun l => l.latitude)).getD 0.0
              longitude := (cityrecord.location.bind (fun l => l.longitude)).getD 0.0 }
      some r2

/-- The string written by one row of `pl_get_asn` (src/geoip.rs lines
339-354) into the `apply_to_buffer` buffer: the buffer stays empty both
when the address fails to parse and when the ASN lookup misses. -/
def getAsnBuf (asnDb : IpAddr → Option Asn) (parse : String → Option IpAddr)
    (value : String) : String :=
  match parse value with
  | none => ""
  | some ip =>
    match asnDb ip with
    | none => ""
    | some asnrecord =>
      let asnnum := asnrecord.autonomous_system_number.getD 0
      let asnorg := asnrecord.autonomous_system_organization.getD ""
      if asnorg == "" then "AS" ++ toString asnnum
      else "AS" ++ toString asnnum ++ " " ++ asnorg

/-- One output cell of `pl_get_asn`: `apply_to_buffer` maps every non-null
input to the buffer contents (possibly the empty string) and keeps null
inputs null. -/
def pl_get_asn_row (asnDb : IpAddr → Option Asn) (parse : String → Option IpAddr)
    (row : Option String) : Option String :=
  row.map (getAsnBuf asnDb parse)

/-! ## The global database cache (src/maxmind.rs, src/spurdb.rs, src/geoip.rs)

`MaxMindDB::get_or_init` / `SpurDB::get_or_init` and the corresponding
`reload` are textually identical over their mutex-guarded
`Option<Result<DB, PolarsError>>` cell; they are modelled once, generically
in the handle type.  The init attempt is modelled as a function of an
attempt counter, so that "does not re-attempt" is visible as the counter
staying put and the cached outcome being returned verbatim. -/

/-- `get_or_init` (src/maxmind.rs lines 164-172, src/spurdb.rs lines
158-166): under the lock, fill the cell from one init attempt only when it
is empty, then return the cell. -/
def DbCache.getOrInit {α : Type} (initFn : Nat → Except String α)
    (attempts : Nat) (cache : Option (Except String α)) :
    Option (Except String α) × Nat :=
  match cache with
  | none => (some (initFn attempts), attempts + 1)
  | some r => (some r, attempts)

/-- `reload` (src/maxmind.rs lines 156-160, src/spurdb.rs lines 150-154):
unconditionally overwrite the cell with a fresh init attempt. -/
def DbCache.reload {α : Type} (initFn : Nat → Except String α)
    (attempts : Nat) (_cache : Option (Except String α)) :
    Option (Except String α) × Nat :=
  (some (initFn attempts), attempts + 1)

/-! ## The enum-dispatched column builder (src/utils.rs) -/

/-- `polars::AnyValue`, restricted to the scalar kinds the wrapper
dispatches on. -/
inductive AnyValue where
  | uint32 (v : Nat)
  | float32 (v : Float)
  | float64 (v : Float)
  | string (v : String)

/-- `BuilderWrapper` (src/utils.rs lines 20-27): one chunked builder per
supported scalar kind plus the `Invalid` null builder.  Cells are kept
newest-first; the `Invalid` variant only counts its (all-null) cells. -/
inductive BuilderWrapper where
  | uint32 (cells : List (Option Nat))
  | float32 (cells : List (Option Float))
  | float64 (cells : List (Option Float))
  | string (cells : List (Option String))
  | invalid (cells : Nat)

/-- `BuilderWrapper::append_value` (src/utils.rs lines 29-83): a value
whose `AnyValue` kind matches the builder variant is appended as a value,
any other kind is appended as null, and `Invalid` always appends null.
The match is total: no case panics. -/
def BuilderWrapper.append_value (b : BuilderWrapper) (value : AnyValue) :
    BuilderWrapper :=
  match b, value with
  | .uint32 cells, .uint32 v => .uint32 (some v :: cells)
  | .uint32 cells, _ => .uint32 (none :: cells)
  | .float32 cells, .float32 v => .float32 (some v :: cells)
  | .float32 cells, _ => .float32 (none :: cells)
  | .float64 cells, .float64 v => .float64 (some v :: cells)
  | .float64 cells, _ => .float64 (none :: cells)
  | .string cells, .string v => .string (some v :: cells)
  | .string cells, _ => .string (none :: cells)
  | .invalid n, _ => .invalid (n + 1)

/-- Number of cells accumulated in a builder. -/
def BuilderWrapper.numCells : BuilderWrapper → Nat
  | .uint32 cells => cells.length
  | .float32 cells => cells.length
  | .float64 cells => cells.length
  | .string cells => cells.length
  | .invalid n => n

/-- The most recent cell of a builder, re-tagged as an optional
`AnyValue` (`none` for an empty builder, `some none` for a null cell). -/
def BuilderWrapper.headCell : BuilderWrapper → Option (Option AnyValue)
  | .uint32 cells => cells.head?.map (fun c => c.map AnyValue.uint32)
  | .float32 cells => cells.head?.map (fun c => c.map AnyValue.float32)
  | .float64 cells => cells.head?.map (fun c => c.map AnyValue.float64)
  | .string cells => cells.head?.map (fun c => c.map AnyValue.string)
  | .invalid n => if n = 0 then none else some none

/-- Whether an `AnyValue`'s kind matches a builder variant (the `Invalid`
variant matches nothing). -/
def kindMatches : BuilderWrapper → AnyValue → Bool
  | .uint32 _, .uint32 _ => true
  | .float32 _, .float32 _ => true
  | .float64 _, .float64 _ => true
  | .string _, .string _ => true
  | _, _ => false

/-! ## Concrete instances used by counterexamples and witnesses -/

/-- A Spur raw record carrying none of the optional fields — in
particular no `services` field. -/
def spurRecNoServices : SpurLookupResult :=
  ⟨none, none, none, none, none, none, none⟩

/-- A Spur database in which every address resolves to the record with no
`services` field. -/
def spurDbCex : IpAddr → Option SpurLookupResult :=
  fun _ => some spurRecNoServices

/-- A Spur database with no entries at all. -/
def spurDbMiss : IpAddr → Option SpurLookupResult :=
  fun _ => none

/-- An ASN database with no entries. -/
def asnDbMiss : IpAddr → Option Asn :=
  fun _ => none

/-- A City database with no entries. -/
def cityDbMiss : IpAddr → Option City :=
  fun _ => none

/-- A concrete address parse function accepting exactly `1.2.3.4`,
consistent with `IpAddr::from_str` on the strings it is applied to. -/
def parseIpCex : String → Option IpAddr :=
  fun s => if s = "1.2.3.4" then some (.v4 ⟨1, 2, 3, 4⟩) else none

/-- A concrete range parse function accepting exactly the default route
`0.0.0.0/0`, consistent with `IpNet::from_str` on the strings it is
applied to. -/
def parseNetCex : String → Option IpNet :=
  fun s => if s = "0.0.0.0/0" then some (.v4 ⟨0, 0⟩) else none

/-- A concrete range parse function accepting exactly `10.0.0.0/8`. -/
def parseNetTen : String → Option IpNet :=
  fun s => if s = "10.0.0.0/8" then some (.v4 ⟨0x0A000000, 8⟩) else none

end PolarsIptools

namespace PolarsIptools

/-- C5: the IPv4 numeric conversions round-trip: decoding the encoded
32-bit integer of a valid address yields the address back, and encoding the
decoded address of any 32-bit integer yields the integer back. -/
theorem ipv4_numeric_roundtrip (v : Ipv4Addr) (n : Nat)
    (hv : v.valid = true) (hn : n < 2 ^ 32) :
    ipv4FromU32 (u32FromIpv4 v) = v ∧ u32FromIpv4 (ipv4FromU32 n) = n := by
  constructor
  · obtain ⟨a, b, c, d⟩ := v
    simp only [Ipv4Addr.valid, Bool.and_eq_true, decide_eq_true_eq] at hv
    obtain ⟨⟨⟨h1, h2⟩, h3⟩, h4⟩ := hv
    simp only [ipv4FromU32, u32FromIpv4, Ipv4Addr.mk.injEq]
    refine ⟨?_, ?_, ?_, ?_⟩ <;> omega
  · simp only [ipv4FromU32, u32FromIpv4]
    omega

/-- Witness for C5 at `192.168.1.1` and `3232235777`. -/
theorem ipv4_numeric_roundtrip_witness :
    ipv4FromU32 (u32FromIpv4 ⟨192, 168, 1, 1⟩) = ⟨192, 168, 1, 1⟩ ∧
    u32FromIpv4 (ipv4FromU32 3232235777) = 3232235777 :=
  ipv4_numeric_roundtrip ⟨192, 168, 1, 1⟩ 3232235777 (by decide) (by decide)

/-- The longest-prefix lookup lands on a prefix of nonzero length exactly
when the fallback already has nonzero length or some inserted prefix
contains the address and has nonzero length. -/
theorem lctrieLookup_len_pos {α : Type} (contains : α → Nat → Bool)
    (lenOf : α → Nat) (ip : Nat) (nets : List α) :
    ∀ best : α,
      (0 < lenOf (lctrieLookup contains lenOf ip nets best) ↔
        0 < lenOf best ∨ ∃ n ∈ nets, contains n ip = true ∧ 0 < lenOf n) := by
  induction nets with
  | nil =>
    intro best
    simp [lctrieLookup]
  | cons net rest ih =>
    intro best
    rw [lctrieLookup, ih]
    by_cases hc : contains net ip = true ∧ lenOf best < lenOf net
    · rw [if_pos hc]
      simp only [List.mem_cons]
      constructor
      · rintro (h | ⟨n, hn, hcn, hln⟩)
        · exact Or.inr ⟨net, Or.inl rfl, hc.1, h⟩
        · exact Or.inr ⟨n, Or.inr hn, hcn, hln⟩
      · rintro (h | ⟨n, hn, hcn, hln⟩)
        · exact Or.inl (by omega)
        · rcases hn with rfl | hn
          · exact Or.inl hln
          · exact Or.inr ⟨n, hn, hcn, hln⟩
    · rw [if_neg hc]
      simp only [List.mem_cons]
      constructor
      · rintro (h | ⟨n, hn, hcn, hln⟩)
        · exact Or.inl h
        · exact Or.inr ⟨n, Or.inr hn, hcn, hln⟩
      · rintro (h | ⟨n, hn, hcn, hln⟩)
        · exact Or.inl h
        · rcases hn with rfl | hn
          · have hle : ¬ lenOf best < lenOf n := fun hlt => hc ⟨hcn, hlt⟩
            exact Or.inl (by omega)
          · exact Or.inr ⟨n, hn, hcn, hln⟩

/-- C4 (amended): for every query row holding a parseable address, the
output cell is boolean, and it is true exactly when some inserted range of
the same address family with nonzero prefix length covers the address; a
covering range of the other family, or an inserted `/0` range (which is
indistinguishable from the trie's always-present root prefix), never
produces a match. -/
theorem pl_is_in_row_match_iff (parse : String → Option IpAddr)
    (v4s : List Ipv4Net) (v6s : List Ipv6Net) (value : String) (ip : IpAddr)
    (h : parse value = some ip) :
    ∃ b, pl_is_in_row parse v4s v6s (some value) = some b ∧
      (b = true ↔ familyCovered v4s v6s ip) := by
  cases ip with
  | v4 a =>
    refine ⟨ipv4TrieMatch v4s (u32FromIpv4 a), by simp [pl_is_in_row, h], ?_⟩
    rw [ipv4TrieMatch, decide_eq_true_eq,
      lctrieLookup_len_pos Ipv4Net.containsIp Ipv4Net.len (u32FromIpv4 a) v4s ⟨0, 0⟩]
    simp [familyCovered]
  | v6 a =>
    refine ⟨ipv6TrieMatch v6s a, by simp [pl_is_in_row, h], ?_⟩
    rw [ipv6TrieMatch, decide_eq_true_eq,
      lctrieLookup_len_pos Ipv6Net.containsIp Ipv6Net.len a v6s ⟨0, 0⟩]
    simp [familyCovered]

/-- Witness for C4 (amended): `1.2.3.4` against the single range
`10.0.0.0/8` does not match, and the iff of the theorem holds there. -/
theorem pl_is_in_row_match_iff_witness :
    ∃ b, pl_is_in_row parseIpCex [⟨0x0A000000, 8⟩] [] (some "1.2.3.4") = some b ∧
      (b = true ↔ familyCovered [⟨0x0A000000, 8⟩] [] (.v4 ⟨1, 2, 3, 4⟩)) :=
  pl_is_in_row_match_iff parseIpCex [⟨0x0A000000, 8⟩] [] "1.2.3.4"
    (.v4 ⟨1, 2, 3, 4⟩) rfl

/-- Counterexample to C4 as stated: the default route `0.0.0.0/0` is a
covering v4 range and is inserted, yet the query for `1.2.3.4` returns
false, because the inserted prefix of length 0 cannot be told apart from
the trie's root prefix by the `.len() > 0` check. -/
theorem pl_is_in_default_route_cex :
    Ipv4Net.containsIp ⟨0, 0⟩ (u32FromIpv4 ⟨1, 2, 3, 4⟩) = true ∧
    parseNetCex "0.0.0.0/0" = some (.v4 ⟨0, 0⟩) ∧
    pl_is_in parseIpCex parseNetCex [some "1.2.3.4"] [some "0.0.0.0/0"] =
      .ok [some false] := by
  refine ⟨by decide, rfl, rfl⟩

/-- If some non-null entry of the ranges column fails to parse, trie
construction returns the `Invalid CIDR range` error naming a failing
non-null entry (the first one encountered). -/
theorem buildTries_fails_of_bad (parseNet : String → Option IpNet) :
    ∀ (ranges : List (Option String)) (s : String),
      some s ∈ ranges → parseNet s = none →
      ∃ bad, buildTries parseNet ranges = .error ("Invalid CIDR range: " ++ bad) ∧
        some bad ∈ ranges ∧ parseNet bad = none := by
  intro ranges
  induction ranges with
  | nil =>
    intro s hs _
    simp at hs
  | cons r rest ih =>
    intro s hs hbad
    cases r with
    | none =>
      have hs' : some s ∈ rest := by
        rcases List.mem_cons.mp hs with h | h
        · exact Option.noConfusion h
        · exact h
      obtain ⟨bad, hb1, hb2, hb3⟩ := ih s hs' hbad
      exact ⟨bad, hb1, List.mem_cons_of_mem _ hb2, hb3⟩
    | some cidr =>
      rcases hp : parseNet cidr with _ | net
      · refine ⟨cidr, ?_, List.mem_cons_self _ _, hp⟩
        simp [buildTries, hp]
      · have hs' : some s ∈ rest := by
          rcases List.mem_cons.mp hs with h | h
          · exfalso
            injection h with h'
            rw [h', hp] at hbad
            exact Option.noConfusion hbad
          · exact h
        obtain ⟨bad, hb1, hb2, hb3⟩ := ih s hs' hbad
        refine ⟨bad, ?_, List.mem_cons_of_mem _ hb2, hb3⟩
        cases net with
        | v4 n => simp [buildTries, hp, hb1]
        | v6 n => simp [buildTries, hp, hb1]

/-- C3: whenever the ranges column contains a non-null entry that does not
parse as a CIDR literal, the whole `pl_is_in` call fails with the
`Invalid CIDR range` error naming an offending literal, producing no
result rows. -/
theorem pl_is_in_malformed_range_fails (parse : String → Option IpAddr)
    (parseNet : String → Option IpNet) (ips ranges : List (Option String))
    (s : String) (hmem : some s ∈ ranges) (hbad : parseNet s = none) :
    ∃ bad,
      pl_is_in parse parseNet ips ranges = .error ("Invalid CIDR range: " ++ bad) ∧
      some bad ∈ ranges ∧ parseNet bad = none := by
  obtain ⟨bad, hb1, hb2, hb3⟩ := buildTries_fails_of_bad parseNet ranges s hmem hbad
  exact ⟨bad, by simp [pl_is_in, hb1], hb2, hb3⟩

/-- Witness for C3: a well-formed `10.0.0.0/8` followed by the malformed
literal `nope` makes the whole call fail with the error naming it. -/
theorem pl_is_in_malformed_range_fails_witness :
    (some "nope" ∈ [some "10.0.0.0/8", some "nope"] ∧ parseNetTen "nope" = none) ∧
    ∃ bad,
      pl_is_in parseIpCex parseNetTen [some "1.2.3.4"]
          [some "10.0.0.0/8", some "nope"] =
        .error ("Invalid CIDR range: " ++ bad) ∧
      some bad ∈ [some "10.0.0.0/8", some "nope"] ∧ parseNetTen bad = none :=
  ⟨⟨by simp, rfl⟩,
    pl_is_in_malformed_range_fails parseIpCex parseNetTen [some "1.2.3.4"]
      [some "10.0.0.0/8", some "nope"] "nope" (by simp) rfl⟩

/-- Trie construction fails exactly when some non-null entry fails to
parse as a CIDR literal. -/
theorem buildTries_error_iff (parseNet : String → Option IpNet) :
    ∀ ranges : List (Option String),
      (∃ e, buildTries parseNet ranges = .error e) ↔
        ∃ s : String, some s ∈ ranges ∧ parseNet s = none := by
  intro ranges
  induction ranges with
  | nil =>
    constructor
    · rintro ⟨e, he⟩
      simp [buildTries] at he
    · rintro ⟨s, hs, _⟩
      simp at hs
  | cons r rest ih =>
    cases r with
    | none =>
      constructor
      · rintro ⟨e, he⟩
        obtain ⟨s, hs, hp⟩ := ih.mp ⟨e, he⟩
        exact ⟨s, List.mem_cons_of_mem _ hs, hp⟩
      · rintro ⟨s, hs, hp⟩
        rcases List.mem_cons.mp hs with h | h
        · exact Option.noConfusion h
        · exact ih.mpr ⟨s, h, hp⟩
    | some cidr =>
      rcases hp : parseNet cidr with _ | net
      · constructor
        · intro _
          exact ⟨cidr, List.mem_cons_self _ _, hp⟩
        · intro _
          exact ⟨"Invalid CIDR range: " ++ cidr, by simp [buildTries, hp]⟩
      · constructor
        · rintro ⟨e, he⟩
          cases net with
          | v4 n =>
            simp only [buildTries, hp] at he
            rcases hq : buildTries parseNet rest with e' | tr
            · obtain ⟨s, hs, hps⟩ := ih.mp ⟨e', hq⟩
              exact ⟨s, List.mem_cons_of_mem _ hs, hps⟩
            · rw [hq] at he
              exact Except.noConfusion he
          | v6 n =>
            simp only [buildTries, hp] at he
            rcases hq : buildTries parseNet rest with e' | tr
            · obtain ⟨s, hs, hps⟩ := ih.mp ⟨e', hq⟩
              exact ⟨s, List.mem_cons_of_mem _ hs, hps⟩
            · rw [hq] at he
              exact Except.noConfusion he
        · rintro ⟨s, hs, hps⟩
          have hs' : some s ∈ rest := by
            rcases List.mem_cons.mp hs with h | h
            · exfalso
              injection h with h'
              rw [h', hp] at hps
              exact Option.noConfusion hps
            · exact h
          obtain ⟨e, he⟩ := ih.mpr ⟨s, hs', hps⟩
          cases net with
          | v4 n => exact ⟨e, by simp [buildTries, hp, he]⟩
          | v6 n => exact ⟨e, by simp [buildTries, hp, he]⟩

/-- Dropping a null entry anywhere in the ranges column leaves the trie
construction unchanged. -/
theorem buildTries_skip_null (parseNet : String → Option IpNet) :
    ∀ pre rest : List (Option String),
      buildTries parseNet (pre ++ none :: rest) =
        buildTries parseNet (pre ++ rest) := by
  intro pre rest
  induction pre with
  | nil => rfl
  | cons r pre ih =>
    cases r with
    | none => exact ih
    | some cidr =>
      rcases hp : parseNet cidr with _ | net
      · simp [buildTries, hp]
      · cases net with
        | v4 n => simp [buildTries, hp, ih]
        | v6 n => simp [buildTries, hp, ih]

/-- C10: null entries in the ranges column are silently skipped — a null
entry at any position inserts nothing into either trie and the
construction result is the same as without it — and the construction error
is raised if and only if some non-null entry fails to parse as a CIDR
literal. -/
theorem buildTries_null_skipped_error_iff (parseNet : String → Option IpNet)
    (pre rest ranges : List (Option String)) :
    buildTries parseNet (pre ++ none :: rest) =
      buildTries parseNet (pre ++ rest) ∧
    ((∃ e, buildTries parseNet ranges = .error e) ↔
      ∃ s : String, some s ∈ ranges ∧ parseNet s = none) :=
  ⟨buildTries_skip_null parseNet pre rest, buildTries_error_iff parseNet ranges⟩

/-- Counterexample to C1 as stated: a successful Spur lookup whose raw
record lacks the `services` field projects to an explicitly empty services
list (`some []`), not to the absent state (`none`) the claim requires. -/
theorem spur_services_missing_cex :
    spurDbCex (.v4 ⟨1, 2, 3, 4⟩) = some spurRecNoServices ∧
    spurRecNoServices.services = none ∧
    (SpurDB.iplookup spurDbCex (.v4 ⟨1, 2, 3, 4⟩)).services = some [] ∧
    (SpurDB.iplookup spurDbCex (.v4 ⟨1, 2, 3, 4⟩)).services ≠ none := by
  refine ⟨rfl, rfl, rfl, ?_⟩
  intro h
  exact Option.noConfusion h

/-- C1 (amended): for every successful Spur lookup, the projected services
list is an explicit list — the raw field's value, or the empty list when
the raw record lacks the field; the services list is absent (`None`)
exactly when the lookup misses. -/
theorem spur_services_projection (db : IpAddr → Option SpurLookupResult)
    (ip : IpAddr) (record : SpurLookupResult) (hdb : db ip = some record) :
    (SpurDB.iplookup db ip).services = some (record.services.getD []) ∧
    ∀ db2 : IpAddr → Option SpurLookupResult, ∀ ip2 : IpAddr,
      db2 ip2 = none → (SpurDB.iplookup db2 ip2).services = none := by
  constructor
  · simp [SpurDB.iplookup, hdb]
  · intro db2 ip2 h2
    simp [SpurDB.iplookup, h2, SpurResult.default]

/-- Witness for C1 (amended) at the record with no services field and at
the empty database. -/
theorem spur_services_projection_witness :
    (SpurDB.iplookup spurDbCex (.v4 ⟨1, 2, 3, 4⟩)).services =
      some (spurRecNoServices.services.getD []) ∧
    ∀ db2 : IpAddr → Option SpurLookupResult, ∀ ip2 : IpAddr,
      db2 ip2 = none → (SpurDB.iplookup db2 ip2).services = none :=
  spur_services_projection spurDbCex (.v4 ⟨1, 2, 3, 4⟩) spurRecNoServices rfl

/-- Counterexample to C2 as stated: for the ASN-string lookup
(`pl_get_asn`), a row whose text fails address parsing yields the empty
string, while a null row yields null — the two outputs are
distinguishable. -/
theorem get_asn_invalid_vs_null_cex :
    parseIpCex "not-an-ip" = none ∧
    pl_get_asn_row asnDbMiss parseIpCex (some "not-an-ip") = some "" ∧
    pl_get_asn_row asnDbMiss parseIpCex none = none ∧
    pl_get_asn_row asnDbMiss parseIpCex (some "not-an-ip") ≠
      pl_get_asn_row asnDbMiss parseIpCex none := by
  refine ⟨rfl, rfl, rfl, ?_⟩
  intro h
  exact Option.noConfusion h

/-- C2 (amended): for the geoip enrichment and the CIDR matching, a row
whose text fails address parsing produces exactly the null-row output; for
the ASN-string lookup, such a row produces the empty string — the same
output as a lookup miss — while a null row produces null. -/
theorem invalid_parse_rows (asnDb : IpAddr → Option Asn)
    (cityDb : IpAddr → Option City) (parse : String → Option IpAddr)
    (v4s : List Ipv4Net) (v6s : List Ipv6Net) (s : String)
    (h : parse s = none) :
    pl_full_geoip_row asnDb cityDb parse (some s) =
      pl_full_geoip_row asnDb cityDb parse none ∧
    pl_is_in_row parse v4s v6s (some s) = pl_is_in_row parse v4s v6s none ∧
    pl_get_asn_row asnDb parse (some s) = some "" ∧
    pl_get_asn_row asnDb parse none = none := by
  refine ⟨?_, ?_, ?_, rfl⟩
  · simp [pl_full_geoip_row, h]
  · simp [pl_is_in_row, h]
  · simp [pl_get_asn_row, getAsnBuf, h]

/-- Witness for C2 (amended) at the unparseable row `not-an-ip`. -/
theorem invalid_parse_rows_witness :
    pl_full_geoip_row asnDbMiss cityDbMiss parseIpCex (some "not-an-ip") =
      pl_full_geoip_row asnDbMiss cityDbMiss parseIpCex none ∧
    pl_is_in_row parseIpCex [] [] (some "not-an-ip") =
      pl_is_in_row parseIpCex [] [] none ∧
    pl_get_asn_row asnDbMiss parseIpCex (some "not-an-ip") = some "" ∧
    pl_get_asn_row asnDbMiss parseIpCex none = none :=
  invalid_parse_rows asnDbMiss cityDbMiss parseIpCex [] [] "not-an-ip" rfl

/-- C6: a validly parsed address that is absent from every queried
database produces the all-defaults record for that row — numeric fields 0,
text fields empty, the Spur services list absent — and never a null row. -/
theorem no_match_all_defaults (asnDb : IpAddr → Option Asn)
    (cityDb : IpAddr → Option City) (spurDb : IpAddr → Option SpurLookupResult)
    (parse : String → Option IpAddr) (s : String) (ip : IpAddr)
    (hp : parse s = some ip) (ha : asnDb ip = none) (hc : cityDb ip = none)
    (hs : spurDb ip = none) :
    pl_full_geoip_row asnDb cityDb parse (some s) = some GeoRecord.defaults ∧
    pl_full_spur_row spurDb parse (some s) =
      { client_count := some 0.0
        infrastructure := some ""
        location_city := some ""
        location_country := some ""
        location_state := some ""
        tag := some ""
        services := none } := by
  constructor
  · simp [pl_full_geoip_row, hp, ha, hc]
  · simp [pl_full_spur_row, SpurDB.iplookup, SpurResult.default, hp, hs]

/-- Witness for C6 at `1.2.3.4` against entirely empty databases. -/
theorem no_match_all_defaults_witness :
    pl_full_geoip_row asnDbMiss cityDbMiss parseIpCex (some "1.2.3.4") =
      some GeoRecord.defaults ∧
    pl_full_spur_row spurDbMiss parseIpCex (some "1.2.3.4") =
      { client_count := some 0.0
        infrastructure := some ""
        location_city := some ""
        location_country := some ""
        location_state := some ""
        tag := some ""
        services := none } :=
  no_match_all_defaults asnDbMiss cityDbMiss spurDbMiss parseIpCex "1.2.3.4"
    (.v4 ⟨1, 2, 3, 4⟩) rfl rfl rfl rfl

/-- C7: a null input row produces a null across every output field of the
geoip and Spur enrichments (and of the ASN-string lookup), and a null
output cell for the CIDR matching. -/
theorem null_input_null_row (asnDb : IpAddr → Option Asn)
    (cityDb : IpAddr → Option City) (spurDb : IpAddr → Option SpurLookupResult)
    (parse : String → Option IpAddr) (v4s : List Ipv4Net) (v6s : List Ipv6Net) :
    pl_full_geoip_row asnDb cityDb parse none = none ∧
    pl_full_spur_row spurDb parse none = SpurRow.allNull ∧
    pl_get_asn_row asnDb parse none = none ∧
    pl_is_in_row parse v4s v6s none = none :=
  ⟨rfl, rfl, rfl, rfl⟩

/-- C8: a cached initialization outcome — in particular a cached failure —
is returned verbatim by `get_or_init` with no new initialization attempt
(the attempt counter does not move); only `reload` runs a fresh attempt
and replaces the cached outcome. -/
theorem cached_failure_not_retried {α : Type} (initFn : Nat → Except String α)
    (attempts : Nat) (e : String) (cache : Option (Except String α)) :
    DbCache.getOrInit initFn attempts (some (.error e)) =
      (some (.error e), attempts) ∧
    DbCache.reload initFn attempts cache = (some (initFn attempts), attempts + 1) :=
  ⟨rfl, rfl⟩

/-- C9: `BuilderWrapper::append_value` is total and appends exactly one
cell: the value itself when the `AnyValue` kind matches the builder
variant, a null cell on any kind mismatch, and always a null cell for the
`Invalid` variant. -/
theorem append_value_total_dispatch (b : BuilderWrapper) (value : AnyValue) :
    (b.append_value value).numCells = b.numCells + 1 ∧
    (b.append_value value).headCell =
      some (if kindMatches b value then some value else none) := by
  cases b <;> cases value <;>
    simp [BuilderWrapper.append_value, BuilderWrapper.numCells,
      BuilderWrapper.headCell, kindMatches]

end PolarsIptools
